import Mathlib

/-!
Shallow embedding of `src/fastmcp/prompts/prompt_manager.py`
(class `PromptManager`) and the parts of its environment the
claims need.

Modelling conventions:
- Python `dict[str, Prompt]` is an association list `List (String × Prompt)`
  with Python-dict semantics: `dictGet` returns the binding for an exact key,
  `dictSet` replaces in place when the key exists and appends otherwise.
- Raised exceptions become `Except` results.  Both `ValueError` sites are kept
  apart following the error taxonomy of the design document
  (`ConfigurationError` for the constructor, `ConflictError` for
  `add_prompt`), together with `NotFoundError` from `fastmcp.exceptions`;
  each carries its Python message string.
- `Prompt` objects (external to the excerpt) are immutable records with a
  `name` and a `render` procedure; `render` is an abstract function from
  optional arguments and an optional context to either a list of messages or
  a delegated error of its own.  A `Prompt` instance is always truthy in
  Python, so `if existing:` / `if not prompt:` test for `None` and are
  modelled by matching on `Option`.
- Mutation of `self._prompts` becomes explicit state passing: `add_prompt`
  returns the call result together with the post-state and the list of
  warning messages emitted through `logger.warning`.
-/

set_option autoImplicit false

namespace FastMCP

/-- Error taxonomy of the registry, one constructor per raise site:
`configurationError` is the `ValueError` raised by `PromptManager.__init__`,
`conflictError` is the `ValueError` raised by `PromptManager.add_prompt`
under the `error` policy, and `notFoundError` is the `NotFoundError`
raised by `PromptManager.render_prompt`.  Each carries its message string. -/
inductive Err where
  | configurationError (msg : String)
  | conflictError (msg : String)
  | notFoundError (msg : String)
deriving DecidableEq

/-- Modelled from the spec: `DuplicateBehavior.__args__` from
`fastmcp.settings`, which is not part of the excerpt.  The design document
fixes the recognized duplicate policies as the four values
`{warn, replace, error, ignore}` with default `warn`. -/
def duplicateBehaviorArgs : List String := ["warn", "replace", "error", "ignore"]

/-- A prompt definition as seen by the registry: a name and a render
procedure (`Prompt.render` in `fastmcp.prompts.prompt`, external to the
excerpt).  `Args`, `Ctx`, `Msg` and `ε` are the types of the argument
dictionary, the context object, a single message, and a delegated render
error. -/
structure Prompt (Args Ctx Msg ε : Type) where
  name : String
  render : Option Args → Option Ctx → Except ε (List Msg)

/-- `dict.get key` on an association list: the value bound to the first
(unique) occurrence of the key, or `none`. -/
def dictGet {α : Type} : List (String × α) → String → Option α
  | [], _ => none
  | (k', v) :: rest, k => if k' = k then some v else dictGet rest k

/-- `dict[key] = value` on an association list: replaces the existing
binding in place, or appends a new one at the end (Python dict update
semantics). -/
def dictSet {α : Type} : List (String × α) → String → α → List (String × α)
  | [], k, v => [(k, v)]
  | (k', v') :: rest, k, v =>
      if k' = k then (k, v) :: rest else (k', v') :: dictSet rest k v

/-- `key in dict` on an association list. -/
def dictContains {α : Type} : List (String × α) → String → Bool
  | [], _ => false
  | (k', _) :: rest, k => k' = k || dictContains rest k

/-- The state of a `PromptManager`: the `_prompts` mapping and the
`duplicate_behavior` string fixed at construction. -/
structure PromptManager (Args Ctx Msg ε : Type) where
  _prompts : List (String × Prompt Args Ctx Msg ε)
  duplicate_behavior : String

/-- `PromptManager.__init__`: coalesces `None` to `"warn"`, validates the
policy against `DuplicateBehavior.__args__`, and otherwise raises
`ValueError` with a message listing the valid values; on success the
`_prompts` mapping starts empty. -/
def PromptManager.mkInit {Args Ctx Msg ε : Type} (duplicate_behavior : Option String) :
    Except Err (PromptManager Args Ctx Msg ε) :=
  let db := duplicate_behavior.getD "warn"
  if db ∈ duplicateBehaviorArgs then
    Except.ok { _prompts := [], duplicate_behavior := db }
  else
    Except.error (Err.configurationError
      ("Invalid duplicate_behavior: " ++ db ++ ". Must be one of: " ++
        String.intercalate ", " duplicateBehaviorArgs))

/-- `PromptManager.get_prompt`: `self._prompts.get(key)`. -/
def PromptManager.get_prompt {Args Ctx Msg ε : Type}
    (m : PromptManager Args Ctx Msg ε) (key : String) :
    Option (Prompt Args Ctx Msg ε) :=
  dictGet m._prompts key

/-- `PromptManager.get_prompts`: the full mapping. -/
def PromptManager.get_prompts {Args Ctx Msg ε : Type}
    (m : PromptManager Args Ctx Msg ε) : List (String × Prompt Args Ctx Msg ε) :=
  m._prompts

/-- `PromptManager.has_prompt`: `key in self._prompts`. -/
def PromptManager.has_prompt {Args Ctx Msg ε : Type}
    (m : PromptManager Args Ctx Msg ε) (key : String) : Bool :=
  dictContains m._prompts key

/-- `key = key or prompt.name`: with `key : str | None`, both `None` and
the empty string are falsy, so they resolve to the prompt's own name. -/
def resolveKey (key : Option String) (name : String) : String :=
  match key with
  | none => name
  | some k => if k = "" then name else k

/-- `PromptManager.add_prompt`, state-passing form.  Returns the Python
return value (or the raised error), the post-state, and the warning
messages emitted through `logger.warning`.  Branches mirror the source:
a bound key dispatches on `duplicate_behavior` (`warn` logs and replaces,
`replace` replaces, `error` raises, `ignore` returns the existing prompt;
any other string falls through every branch to `return prompt` with no
mutation), an unbound key inserts unconditionally. -/
def PromptManager.add_prompt {Args Ctx Msg ε : Type}
    (m : PromptManager Args Ctx Msg ε) (prompt : Prompt Args Ctx Msg ε)
    (key : Option String) :
    Except Err (Prompt Args Ctx Msg ε) × PromptManager Args Ctx Msg ε × List String :=
  let k := resolveKey key prompt.name
  match dictGet m._prompts k with
  | some existing =>
      if m.duplicate_behavior = "warn" then
        (Except.ok prompt,
         { m with _prompts := dictSet m._prompts k prompt },
         ["Prompt already exists: " ++ k])
      else if m.duplicate_behavior = "replace" then
        (Except.ok prompt,
         { m with _prompts := dictSet m._prompts k prompt },
         [])
      else if m.duplicate_behavior = "error" then
        (Except.error (Err.conflictError ("Prompt already exists: " ++ k)), m, [])
      else if m.duplicate_behavior = "ignore" then
        (Except.ok existing, m, [])
      else
        (Except.ok prompt, m, [])
  | none =>
      (Except.ok prompt,
       { m with _prompts := dictSet m._prompts k prompt },
       [])

/-- `PromptManager.render_prompt`: resolves the name via `get_prompt`,
raises `NotFoundError` when absent, otherwise delegates to the prompt's
own render procedure; a delegated error propagates unchanged
(injected on the right of the sum). -/
def PromptManager.render_prompt {Args Ctx Msg ε : Type}
    (m : PromptManager Args Ctx Msg ε) (name : String)
    (arguments : Option Args) (context : Option Ctx) :
    Except (Err ⊕ ε) (List Msg) :=
  match m.get_prompt name with
  | none => Except.error (Sum.inl (Err.notFoundError ("Unknown prompt: " ++ name)))
  | some p =>
      match p.render arguments context with
      | Except.ok msgs => Except.ok msgs
      | Except.error e => Except.error (Sum.inr e)

/-- Instrumented version of `render_prompt` that additionally records the
delegated calls made: the source has exactly one call site
(`await prompt.render(arguments, context=context)`), reached only in the
`some` branch, so the trace records one triple there and is empty in the
`NotFoundError` branch.  The first component coincides with
`render_prompt` (see `renderPromptTrace_fst`). -/
def renderPromptTrace {Args Ctx Msg ε : Type}
    (m : PromptManager Args Ctx Msg ε) (name : String)
    (arguments : Option Args) (context : Option Ctx) :
    Except (Err ⊕ ε) (List Msg) × List (Prompt Args Ctx Msg ε × Option Args × Option Ctx) :=
  match m.get_prompt name with
  | none => (Except.error (Sum.inl (Err.notFoundError ("Unknown prompt: " ++ name))), [])
  | some p =>
      (match p.render arguments context with
       | Except.ok msgs => Except.ok msgs
       | Except.error e => Except.error (Sum.inr e),
       [(p, arguments, context)])

/-! Concrete fixtures used to evaluate the theorems on explicit inputs.
The type parameters are instantiated with `Nat` (arguments, context and
messages) and `Unit` (delegated render errors). -/

/-- A sample prompt named `alpha` whose render echoes its argument. -/
def promptA : Prompt Nat Nat Nat Unit :=
  { name := "alpha", render := fun a _ => Except.ok [a.getD 0] }

/-- A second, different prompt that also claims the name `alpha`. -/
def promptB : Prompt Nat Nat Nat Unit :=
  { name := "alpha", render := fun _ _ => Except.ok [7] }

/-- A prompt whose render procedure always fails with its delegated error. -/
def promptFailing : Prompt Nat Nat Nat Unit :=
  { name := "omega", render := fun _ _ => Except.error () }

/-- A prompt with an empty name. -/
def promptNoName : Prompt Nat Nat Nat Unit :=
  { name := "", render := fun _ _ => Except.ok [] }

/-- A one-entry manager (key `alpha` bound to `promptA`) with the given
duplicate policy. -/
def mgr (db : String) : PromptManager Nat Nat Nat Unit :=
  { _prompts := [("alpha", promptA), ("beta", promptFailing)], duplicate_behavior := db }

/-- An empty manager with the given duplicate policy. -/
def emptyMgr (db : String) : PromptManager Nat Nat Nat Unit :=
  { _prompts := [], duplicate_behavior := db }

theorem renderPromptTrace_fst {Args Ctx Msg ε : Type}
    (m : PromptManager Args Ctx Msg ε) (name : String)
    (arguments : Option Args) (context : Option Ctx) :
    (renderPromptTrace m name arguments context).1 =
      m.render_prompt name arguments context := by
  unfold renderPromptTrace PromptManager.render_prompt
  cases m.get_prompt name with
  | none => rfl
  | some p => cases p.render arguments context <;> rfl

/-! Association-list lemmas (Python dict semantics). -/

theorem dictGet_dictSet_self {α : Type} (d : List (String × α)) (k : String) (v : α) :
    dictGet (dictSet d k v) k = some v := by
  induction d with
  | nil => simp [dictGet, dictSet]
  | cons hd tl ih =>
      obtain ⟨k', v'⟩ := hd
      by_cases h : k' = k
      · simp [dictGet, dictSet, h]
      · simp [dictGet, dictSet, h, ih]

theorem dictGet_dictSet_ne {α : Type} (d : List (String × α)) (k k' : String) (v : α)
    (h : k' ≠ k) : dictGet (dictSet d k v) k' = dictGet d k' := by
  have hk : ¬ k = k' := fun e => h e.symm
  induction d with
  | nil => simp [dictGet, dictSet, hk]
  | cons hd tl ih =>
      obtain ⟨k₀, v₀⟩ := hd
      by_cases h₀ : k₀ = k
      · subst h₀
        simp [dictGet, dictSet, hk]
      · simp [dictGet, dictSet, h₀, ih]

theorem dictContains_eq_isSome_dictGet {α : Type} (d : List (String × α)) (k : String) :
    dictContains d k = (dictGet d k).isSome := by
  induction d with
  | nil => rfl
  | cons hd tl ih =>
      obtain ⟨k', v'⟩ := hd
      by_cases h : k' = k
      · simp [dictContains, dictGet, h]
      · simp [dictContains, dictGet, h, ih]

/-! Characterization of `add_prompt`, one lemma per branch of the source. -/

theorem add_prompt_of_unbound {Args Ctx Msg ε : Type}
    (m : PromptManager Args Ctx Msg ε) (q : Prompt Args Ctx Msg ε)
    (key : Option String) (k : String)
    (hkey : resolveKey key q.name = k)
    (hb : dictGet m._prompts k = none) :
    m.add_prompt q key =
      (Except.ok q, { m with _prompts := dictSet m._prompts k q }, []) := by
  simp only [PromptManager.add_prompt, hkey, hb]

theorem add_prompt_of_bound_warn {Args Ctx Msg ε : Type}
    (m : PromptManager Args Ctx Msg ε) (q p₀ : Prompt Args Ctx Msg ε)
    (key : Option String) (k : String)
    (hpol : m.duplicate_behavior = "warn")
    (hkey : resolveKey key q.name = k)
    (hb : dictGet m._prompts k = some p₀) :
    m.add_prompt q key =
      (Except.ok q, { m with _prompts := dictSet m._prompts k q },
       ["Prompt already exists: " ++ k]) := by
  simp only [PromptManager.add_prompt, hkey, hb, hpol]
  simp

theorem add_prompt_of_bound_replace {Args Ctx Msg ε : Type}
    (m : PromptManager Args Ctx Msg ε) (q p₀ : Prompt Args Ctx Msg ε)
    (key : Option String) (k : String)
    (hpol : m.duplicate_behavior = "replace")
    (hkey : resolveKey key q.name = k)
    (hb : dictGet m._prompts k = some p₀) :
    m.add_prompt q key =
      (Except.ok q, { m with _prompts := dictSet m._prompts k q }, []) := by
  simp only [PromptManager.add_prompt, hkey, hb, hpol]
  simp

theorem add_prompt_of_bound_error {Args Ctx Msg ε : Type}
    (m : PromptManager Args Ctx Msg ε) (q p₀ : Prompt Args Ctx Msg ε)
    (key : Option String) (k : String)
    (hpol : m.duplicate_behavior = "error")
    (hkey : resolveKey key q.name = k)
    (hb : dictGet m._prompts k = some p₀) :
    m.add_prompt q key =
      (Except.error (Err.conflictError ("Prompt already exists: " ++ k)), m, []) := by
  simp only [PromptManager.add_prompt, hkey, hb, hpol]
  simp

theorem add_prompt_of_bound_ignore {Args Ctx Msg ε : Type}
    (m : PromptManager Args Ctx Msg ε) (q p₀ : Prompt Args Ctx Msg ε)
    (key : Option String) (k : String)
    (hpol : m.duplicate_behavior = "ignore")
    (hkey : resolveKey key q.name = k)
    (hb : dictGet m._prompts k = some p₀) :
    m.add_prompt q key = (Except.ok p₀, m, []) := by
  simp only [PromptManager.add_prompt, hkey, hb, hpol]
  simp

theorem add_prompt_behavior_invariant {Args Ctx Msg ε : Type}
    (m : PromptManager Args Ctx Msg ε) (q : Prompt Args Ctx Msg ε)
    (key : Option String) :
    ((m.add_prompt q key).2.1).duplicate_behavior = m.duplicate_behavior := by
  cases hb : dictGet m._prompts (resolveKey key q.name) with
  | none => simp only [PromptManager.add_prompt, hb]
  | some p₀ =>
      simp only [PromptManager.add_prompt, hb]
      split_ifs <;> rfl

theorem add_prompt_get_ne {Args Ctx Msg ε : Type}
    (m : PromptManager Args Ctx Msg ε) (q : Prompt Args Ctx Msg ε)
    (key : Option String) (k' : String)
    (h : k' ≠ resolveKey key q.name) :
    ((m.add_prompt q key).2.1).get_prompt k' = m.get_prompt k' := by
  cases hb : dictGet m._prompts (resolveKey key q.name) with
  | none =>
      simp only [PromptManager.add_prompt, hb, PromptManager.get_prompt]
      exact dictGet_dictSet_ne _ _ _ _ h
  | some p₀ =>
      simp only [PromptManager.add_prompt, hb, PromptManager.get_prompt]
      split_ifs <;> first
        | exact dictGet_dictSet_ne _ _ _ _ h
        | rfl

/-- C1: under the `error` policy, registering a second definition under an
already-bound key fails with `ConflictError` whose message names the key,
the whole state (hence the entry mapping) is unchanged, and the originally
registered definition is still retrievable under that key. -/
theorem claim_C1_error_policy_conflict {Args Ctx Msg ε : Type}
    (m : PromptManager Args Ctx Msg ε) (q p₀ : Prompt Args Ctx Msg ε)
    (key : Option String) (k : String)
    (hpol : m.duplicate_behavior = "error")
    (hkey : resolveKey key q.name = k)
    (hb : m.get_prompt k = some p₀) :
    m.add_prompt q key =
      (Except.error (Err.conflictError ("Prompt already exists: " ++ k)), m, []) ∧
    ((m.add_prompt q key).2.1).get_prompt k = some p₀ := by
  have hb' : dictGet m._prompts k = some p₀ := hb
  have h := add_prompt_of_bound_error m q p₀ key k hpol hkey hb'
  exact ⟨h, by rw [h]; exact hb⟩

theorem claim_C1_witness :
    (mgr "error").add_prompt promptB (some "alpha") =
      (Except.error (Err.conflictError ("Prompt already exists: " ++ "alpha")),
       mgr "error", []) ∧
    (((mgr "error").add_prompt promptB (some "alpha")).2.1).get_prompt "alpha" =
      some promptA :=
  claim_C1_error_policy_conflict (mgr "error") promptB promptA (some "alpha") "alpha"
    rfl rfl rfl

/-- C5: under the `ignore` policy, registering a second definition under an
already-bound key returns the previously stored definition, and lookup of
that key afterward still returns the first definition (no insertion). -/
theorem claim_C5_ignore_policy {Args Ctx Msg ε : Type}
    (m : PromptManager Args Ctx Msg ε) (q p₀ : Prompt Args Ctx Msg ε)
    (key : Option String) (k : String)
    (hpol : m.duplicate_behavior = "ignore")
    (hkey : resolveKey key q.name = k)
    (hb : m.get_prompt k = some p₀) :
    m.add_prompt q key = (Except.ok p₀, m, []) ∧
    ((m.add_prompt q key).2.1).get_prompt k = some p₀ := by
  have hb' : dictGet m._prompts k = some p₀ := hb
  have h := add_prompt_of_bound_ignore m q p₀ key k hpol hkey hb'
  exact ⟨h, by rw [h]; exact hb⟩

theorem claim_C5_witness :
    (mgr "ignore").add_prompt promptB (some "alpha") =
      (Except.ok promptA, mgr "ignore", []) ∧
    (((mgr "ignore").add_prompt promptB (some "alpha")).2.1).get_prompt "alpha" =
      some promptA :=
  claim_C5_ignore_policy (mgr "ignore") promptB promptA (some "alpha") "alpha"
    rfl rfl rfl

/-- C6: under the `warn` policy, registering a second definition under an
already-bound key emits a warning, returns the second definition, and lookup
afterward returns the second definition; under `replace` the same
replacement happens with no warning. -/
theorem claim_C6_warn_replace_policy {Args Ctx Msg ε : Type}
    (m : PromptManager Args Ctx Msg ε) (q p₀ : Prompt Args Ctx Msg ε)
    (key : Option String) (k : String)
    (hkey : resolveKey key q.name = k)
    (hb : m.get_prompt k = some p₀) :
    (m.duplicate_behavior = "warn" →
      m.add_prompt q key =
        (Except.ok q, { m with _prompts := dictSet m._prompts k q },
         ["Prompt already exists: " ++ k]) ∧
      ((m.add_prompt q key).2.1).get_prompt k = some q) ∧
    (m.duplicate_behavior = "replace" →
      m.add_prompt q key =
        (Except.ok q, { m with _prompts := dictSet m._prompts k q }, []) ∧
      ((m.add_prompt q key).2.1).get_prompt k = some q) := by
  have hb' : dictGet m._prompts k = some p₀ := hb
  constructor
  · intro hpol
    have h := add_prompt_of_bound_warn m q p₀ key k hpol hkey hb'
    refine ⟨h, ?_⟩
    rw [h]
    exact dictGet_dictSet_self m._prompts k q
  · intro hpol
    have h := add_prompt_of_bound_replace m q p₀ key k hpol hkey hb'
    refine ⟨h, ?_⟩
    rw [h]
    exact dictGet_dictSet_self m._prompts k q

theorem claim_C6_witness :
    ((mgr "warn").add_prompt promptB (some "alpha") =
       (Except.ok promptB,
        { mgr "warn" with
            _prompts := dictSet (mgr "warn")._prompts "alpha" promptB },
        ["Prompt already exists: " ++ "alpha"]) ∧
     (((mgr "warn").add_prompt promptB (some "alpha")).2.1).get_prompt "alpha" =
       some promptB) ∧
    ((mgr "replace").add_prompt promptB (some "alpha") =
       (Except.ok promptB,
        { mgr "replace" with
            _prompts := dictSet (mgr "replace")._prompts "alpha" promptB },
        []) ∧
     (((mgr "replace").add_prompt promptB (some "alpha")).2.1).get_prompt "alpha" =
       some promptB) :=
  ⟨(claim_C6_warn_replace_policy (mgr "warn") promptB promptA (some "alpha") "alpha"
      rfl rfl).1 rfl,
   (claim_C6_warn_replace_policy (mgr "replace") promptB promptA (some "alpha") "alpha"
      rfl rfl).2 rfl⟩

/-- C7: under any policy, registering a definition under an unbound key
succeeds, returns that definition, and afterward lookup of the key returns
it and contains-check is true. -/
theorem claim_C7_fresh_key {Args Ctx Msg ε : Type}
    (m : PromptManager Args Ctx Msg ε) (q : Prompt Args Ctx Msg ε)
    (key : Option String) (k : String)
    (hkey : resolveKey key q.name = k)
    (hfresh : m.get_prompt k = none) :
    m.add_prompt q key =
      (Except.ok q, { m with _prompts := dictSet m._prompts k q }, []) ∧
    ((m.add_prompt q key).2.1).get_prompt k = some q ∧
    ((m.add_prompt q key).2.1).has_prompt k = true := by
  have hfresh' : dictGet m._prompts k = none := hfresh
  have h := add_prompt_of_unbound m q key k hkey hfresh'
  refine ⟨h, ?_, ?_⟩
  · rw [h]
    exact dictGet_dictSet_self m._prompts k q
  · rw [h]
    show dictContains (dictSet m._prompts k q) k = true
    rw [dictContains_eq_isSome_dictGet, dictGet_dictSet_self]
    rfl

theorem claim_C7_witness :
    (emptyMgr "error").add_prompt promptA none =
      (Except.ok promptA,
       { emptyMgr "error" with
           _prompts := dictSet (emptyMgr "error")._prompts "alpha" promptA },
       []) ∧
    (((emptyMgr "error").add_prompt promptA none).2.1).get_prompt "alpha" =
      some promptA ∧
    (((emptyMgr "error").add_prompt promptA none).2.1).has_prompt "alpha" = true :=
  claim_C7_fresh_key (emptyMgr "error") promptA none "alpha" rfl rfl

/-- C8: for every registry state and key, contains-check is true exactly
when lookup returns a definition, and false exactly when lookup returns the
absent indicator.  Both are pure total functions of the state in this
embedding: they return no new state and no error, so they cannot fail or
mutate the entry mapping. -/
theorem claim_C8_contains_iff_lookup {Args Ctx Msg ε : Type}
    (m : PromptManager Args Ctx Msg ε) (k : String) :
    (m.has_prompt k = true ↔ ∃ p, m.get_prompt k = some p) ∧
    (m.has_prompt k = false ↔ m.get_prompt k = none) := by
  have h : m.has_prompt k = (m.get_prompt k).isSome :=
    dictContains_eq_isSome_dictGet m._prompts k
  constructor
  · rw [h]
    cases m.get_prompt k with
    | none => simp
    | some p => simp
  · rw [h]
    cases m.get_prompt k with
    | none => simp
    | some p => simp

/-- C9: a `Register` call changes at most the binding of the resolved
target key: every other key's binding, and the duplicate policy, are the
same before and after the call, whether it succeeds or fails. -/
theorem claim_C9_register_frame {Args Ctx Msg ε : Type}
    (m : PromptManager Args Ctx Msg ε) (q : Prompt Args Ctx Msg ε)
    (key : Option String) :
    ((m.add_prompt q key).2.1).duplicate_behavior = m.duplicate_behavior ∧
    ∀ k', k' ≠ resolveKey key q.name →
      ((m.add_prompt q key).2.1).get_prompt k' = m.get_prompt k' :=
  ⟨add_prompt_behavior_invariant m q key,
   fun k' h => add_prompt_get_ne m q key k' h⟩

theorem claim_C9_witness :
    (((mgr "warn").add_prompt promptB (some "alpha")).2.1).duplicate_behavior =
      (mgr "warn").duplicate_behavior ∧
    (((mgr "warn").add_prompt promptB (some "alpha")).2.1).get_prompt "beta" =
      (mgr "warn").get_prompt "beta" :=
  ⟨(claim_C9_register_frame (mgr "warn") promptB (some "alpha")).1,
   (claim_C9_register_frame (mgr "warn") promptB (some "alpha")).2 "beta" (by decide)⟩

/-- C3: rendering an unbound name fails with `NotFoundError` whose message
carries the unresolved name, and the delegated-call trace is empty: no
definition's render procedure is invoked. -/
theorem claim_C3_render_not_found {Args Ctx Msg ε : Type}
    (m : PromptManager Args Ctx Msg ε) (name : String)
    (arguments : Option Args) (context : Option Ctx)
    (hnone : m.get_prompt name = none) :
    m.render_prompt name arguments context =
      Except.error (Sum.inl (Err.notFoundError ("Unknown prompt: " ++ name))) ∧
    (renderPromptTrace m name arguments context).2 = [] := by
  constructor
  · unfold PromptManager.render_prompt
    rw [hnone]
  · unfold renderPromptTrace
    rw [hnone]

theorem claim_C3_witness :
    (mgr "warn").render_prompt "ghost" (some 1) none =
      Except.error (Sum.inl (Err.notFoundError ("Unknown prompt: " ++ "ghost"))) ∧
    (renderPromptTrace (mgr "warn") "ghost" (some 1) none).2 = [] :=
  claim_C3_render_not_found (mgr "warn") "ghost" (some 1) none rfl

/-- C4: rendering a bound name delegates exactly once to that definition's
render procedure — the delegated-call trace is exactly one call with
exactly the supplied arguments and context — and returns exactly what the
procedure produces: its message list on success, its own error (unwrapped,
injected on the right) on failure. -/
theorem claim_C4_render_delegates {Args Ctx Msg ε : Type}
    (m : PromptManager Args Ctx Msg ε) (p : Prompt Args Ctx Msg ε)
    (name : String) (arguments : Option Args) (context : Option Ctx)
    (hb : m.get_prompt name = some p) :
    (renderPromptTrace m name arguments context).2 = [(p, arguments, context)] ∧
    (∀ msgs, p.render arguments context = Except.ok msgs →
       m.render_prompt name arguments context = Except.ok msgs) ∧
    (∀ e, p.render arguments context = Except.error e →
       m.render_prompt name arguments context = Except.error (Sum.inr e)) := by
  refine ⟨?_, ?_, ?_⟩
  · unfold renderPromptTrace
    rw [hb]
  · intro msgs hr
    unfold PromptManager.render_prompt
    simp only [hb, hr]
  · intro e hr
    unfold PromptManager.render_prompt
    simp only [hb, hr]

theorem claim_C4_witness :
    (renderPromptTrace (mgr "warn") "alpha" (some 5) (some 9)).2 =
      [(promptA, some 5, some 9)] ∧
    (mgr "warn").render_prompt "alpha" (some 5) (some 9) = Except.ok [5] ∧
    (mgr "warn").render_prompt "beta" (some 5) (some 9) =
      Except.error (Sum.inr ()) :=
  ⟨(claim_C4_render_delegates (mgr "warn") promptA "alpha" (some 5) (some 9) rfl).1,
   (claim_C4_render_delegates (mgr "warn") promptA "alpha" (some 5) (some 9) rfl).2.1
     [5] rfl,
   (claim_C4_render_delegates (mgr "warn") promptFailing "beta" (some 5) (some 9) rfl).2.2
     () rfl⟩

theorem mem_args_data_infix_join (v : String)
    (hv : v ∈ duplicateBehaviorArgs) :
    v.data <:+: (String.intercalate ", " duplicateBehaviorArgs).data := by
  fin_cases hv <;> decide

/-- C2: constructing a registry succeeds for each of the four policies
`warn`, `replace`, `error`, `ignore` (and with an empty mapping, storing
that policy); an omitted policy defaults to `warn`; and a non-empty policy
value outside the set fails with `ConfigurationError` whose message
contains every one of the four valid values. -/
theorem claim_C2_construction {Args Ctx Msg ε : Type} :
    (∀ p ∈ duplicateBehaviorArgs,
       @PromptManager.mkInit Args Ctx Msg ε (some p) =
         Except.ok { _prompts := [], duplicate_behavior := p }) ∧
    @PromptManager.mkInit Args Ctx Msg ε none =
      Except.ok { _prompts := [], duplicate_behavior := "warn" } ∧
    (∀ s, s ≠ "" → s ∉ duplicateBehaviorArgs →
       ∃ msg, @PromptManager.mkInit Args Ctx Msg ε (some s) =
           Except.error (Err.configurationError msg) ∧
         ∀ v ∈ duplicateBehaviorArgs, v.data <:+: msg.data) := by
  refine ⟨?_, rfl, ?_⟩
  · intro p hp
    fin_cases hp <;> rfl
  · intro s _ hnot
    refine ⟨"Invalid duplicate_behavior: " ++ s ++ ". Must be one of: " ++
      String.intercalate ", " duplicateBehaviorArgs, ?_, ?_⟩
    · show (if s ∈ duplicateBehaviorArgs then _ else _) = _
      rw [if_neg hnot]
      rfl
    · intro v hv
      have h₁ := mem_args_data_infix_join v hv
      have h₂ : (String.intercalate ", " duplicateBehaviorArgs).data <:+:
          ("Invalid duplicate_behavior: " ++ s ++ ". Must be one of: " ++
            String.intercalate ", " duplicateBehaviorArgs).data := by
        rw [String.data_append]
        exact (List.suffix_append _ _).isInfix
      exact h₁.trans h₂

theorem claim_C2_witness :
    (@PromptManager.mkInit Nat Nat Nat Unit (some "replace") =
       Except.ok { _prompts := [], duplicate_behavior := "replace" }) ∧
    ∃ msg, @PromptManager.mkInit Nat Nat Nat Unit (some "bogus") =
        Except.error (Err.configurationError msg) ∧
      ∀ v ∈ duplicateBehaviorArgs, v.data <:+: msg.data :=
  ⟨(@claim_C2_construction Nat Nat Nat Unit).1 "replace" (by decide),
   (@claim_C2_construction Nat Nat Nat Unit).2.2 "bogus" (by decide) (by decide)⟩

/-- C10 counterexample: the claim quantifies over every definition, but a
definition whose own name is the empty string defeats it — registering it
with the empty-string override key resolves the key to the (empty) name,
so a binding under the empty key is created. -/
theorem claim_C10_counterexample :
    promptNoName.name = "" ∧
    (emptyMgr "warn").get_prompt "" = none ∧
    (((emptyMgr "warn").add_prompt promptNoName (some "")).2.1).get_prompt "" =
      some promptNoName :=
  ⟨rfl, rfl, rfl⟩

/-- C10 (amended): registering with the empty string as the override key
behaves exactly as registering with no override — the definition's own
name is used as the key — and, provided the definition's own name is
non-empty, the binding of the empty key is unchanged, so no binding under
the empty key is created. -/
theorem claim_C10_empty_override {Args Ctx Msg ε : Type}
    (m : PromptManager Args Ctx Msg ε) (q : Prompt Args Ctx Msg ε)
    (hq : q.name ≠ "") :
    m.add_prompt q (some "") = m.add_prompt q none ∧
    ((m.add_prompt q (some "")).2.1).get_prompt "" = m.get_prompt "" := by
  constructor
  · rfl
  · exact add_prompt_get_ne m q (some "") "" (by
      simp only [resolveKey, if_pos rfl]
      exact Ne.symm hq)

theorem claim_C10_witness :
    (mgr "warn").add_prompt promptB (some "") = (mgr "warn").add_prompt promptB none ∧
    (((mgr "warn").add_prompt promptB (some "")).2.1).get_prompt "" =
      (mgr "warn").get_prompt "" :=
  claim_C10_empty_override (mgr "warn") promptB (by decide)

end FastMCP
